import Mathlib

set_option maxRecDepth 8000

/-!
# Shallow embedding of the `news_app` Django application

This file embeds the data model and the request handlers of the
role-based news publishing application (`news_project/news_app/`) and
proves properties of the subscription graph, the approval workflow, the
permission checks and the notification side effects.

Conventions of the embedding:
* Database rows become Lean structures; many-to-many junction tables
  become `Finset (Nat × Nat)` of id pairs (a junction table has a
  uniqueness constraint on the pair, so a finite set is the exact model).
* `DateTimeField(auto_now=True)` is modelled by an explicit `now`
  argument threaded through every handler that calls `save()`.
* Python exceptions become `Except String`; a `try/except` block becomes
  a `match` on the `Except` value of the guarded action.
* External effects (SMTP transport, the social-media HTTP call) are
  modelled by a `World` value describing the outcome the environment
  would produce; handlers read it instead of performing IO.
-/

namespace NewsApp

/-- The role enum of `CustomUser.ROLE_CHOICES` (`models.py`). -/
inductive Role where
  | reader
  | journalist
  | editor
deriving DecidableEq, Repr

/-- A row of the user table (`CustomUser`, `models.py`): id, username,
email and role.  The m2m fields `subscribed_publishers` and
`subscribed_journalists` live in `State` as junction tables. -/
structure User where
  id : Nat
  username : String
  email : String
  role : Role
deriving DecidableEq, Repr

/-- A row of the publisher table (`Publisher`, `models.py`); the
`journalists`/`editors`/`subscribers` m2m relations live in `State`. -/
structure Publisher where
  id : Nat
  name : String
  createdAt : Nat
deriving DecidableEq, Repr

/-- A row of the article table (`Article`, `models.py`): `publisher` is
nullable (`on_delete=SET_NULL`), `approved` defaults to false,
`updated_at` is `auto_now`. -/
structure Article where
  id : Nat
  title : String
  content : String
  authorId : Nat
  publisherId : Option Nat
  createdAt : Nat
  updatedAt : Nat
  approved : Bool
deriving DecidableEq, Repr

/-- A row of the newsletter table (`Newsletter`, `models.py`) together
with its `articles` m2m ids. -/
structure Newsletter where
  id : Nat
  title : String
  description : String
  authorId : Nat
  articleIds : List Nat
  createdAt : Nat
deriving DecidableEq, Repr

/-- The persistent store: the four tables and the four many-to-many
junction tables.  Pairs are read as stated in each field's comment. -/
structure State where
  users : List User
  publishers : List Publisher
  articles : List Article
  newsletters : List Newsletter
  /-- `(readerId, publisherId)`: `CustomUser.subscribed_publishers`,
  reverse accessor `Publisher.subscribers`. -/
  subsPub : Finset (Nat × Nat)
  /-- `(followerId, journalistId)`: `CustomUser.subscribed_journalists`,
  reverse accessor `CustomUser.followers`. -/
  subsJour : Finset (Nat × Nat)
  /-- `(publisherId, userId)`: `Publisher.journalists`. -/
  pubJournalists : Finset (Nat × Nat)
  /-- `(publisherId, userId)`: `Publisher.editors`. -/
  pubEditors : Finset (Nat × Nat)
deriving DecidableEq

/-- `Article.objects.get(pk=pk)` / `get_object_or_404(Article, pk=pk)`:
`none` models `DoesNotExist` (a 404). -/
def getArticle (s : State) (pk : Nat) : Option Article :=
  s.articles.find? (fun a => a.id == pk)

/-- `get_object_or_404(Publisher, pk=pk)`. -/
def getPublisher (s : State) (pk : Nat) : Option Publisher :=
  s.publishers.find? (fun p => p.id == pk)

/-- `get_object_or_404(Newsletter, pk=pk)`. -/
def getNewsletter (s : State) (pk : Nat) : Option Newsletter :=
  s.newsletters.find? (fun n => n.id == pk)

/-- `CustomUser.objects.get(pk=pk)` restricted lookup used by
`subscribe_journalist_view`: `get_object_or_404(CustomUser, pk=pk,
role="journalist")`. -/
def getJournalist (s : State) (pk : Nat) : Option User :=
  s.users.find? (fun u => u.id == pk && u.role == Role.journalist)

/-- Saving one article row: every other row untouched. -/
def updateArticle (pk : Nat) (f : Article → Article) (s : State) : State :=
  { s with articles := s.articles.map (fun a => if a.id == pk then f a else a) }

/-- The username of an article's author (`article.author.username`);
the FK is non-null so the lookup succeeds on well-formed states. -/
def authorUsername (s : State) (a : Article) : String :=
  ((s.users.find? (fun u => u.id == a.authorId)).map User.username).getD ""

/-- The permission codenames the handlers gate on (`utils.py`,
`create_groups_and_permissions`). -/
inductive Perm where
  | view_article
  | add_article
  | change_article
  | delete_article
  | view_newsletter
  | add_newsletter
  | change_newsletter
  | delete_newsletter
  | can_approve_article
deriving DecidableEq, Repr

/-- Which group holds which permission, exactly the three codename lists
of `create_groups_and_permissions` in `utils.py` (a registered user is
in the single group matching their role, `assign_user_to_group`). -/
def hasPerm (r : Role) (p : Perm) : Bool :=
  match r with
  | .reader =>
      match p with
      | .view_article | .view_newsletter => true
      | _ => false
  | .journalist =>
      match p with
      | .view_article | .add_article | .change_article | .delete_article
      | .view_newsletter | .add_newsletter | .change_newsletter
      | .delete_newsletter => true
      | _ => false
  | .editor =>
      match p with
      | .view_article | .change_article | .delete_article
      | .view_newsletter | .change_newsletter | .delete_newsletter
      | .can_approve_article => true
      | _ => false

/-- `get_article_subscribers` (`utils.py`): publisher's subscribers when
the article has a publisher, else the author's followers. -/
def get_article_subscribers (s : State) (a : Article) : List User :=
  match a.publisherId with
  | some p => s.users.filter (fun u => (u.id, p) ∈ s.subsPub)
  | none => s.users.filter (fun u => (u.id, a.authorId) ∈ s.subsJour)

/-- How a server-rendered request ends (flash message + redirect). -/
inductive ViewOutcome where
  /-- `@permission_required(..., raise_exception=True)` denied: 403. -/
  | forbidden
  /-- `get_object_or_404` failed: 404. -/
  | notFound
  /-- the "You can only edit/delete your own ..." error + redirect. -/
  | deniedOwnership
  | success
deriving DecidableEq, Repr

/-- `edit_article_view` (`views.py`), POST with a valid form.  The form
fields are exactly `["title", "content", "publisher"]` (`ArticleForm`);
`save()` also refreshes `updated_at` (`auto_now`). -/
def edit_article_view (userId : Nat) (role : Role) (pk : Nat)
    (title content : String) (publisherId : Option Nat) (now : Nat)
    (s : State) : State × ViewOutcome :=
  if !hasPerm role .change_article then (s, .forbidden)
  else
    match getArticle s pk with
    | none => (s, .notFound)
    | some a =>
      if role == .journalist && a.authorId != userId then (s, .deniedOwnership)
      else
        (updateArticle pk
          (fun b => { b with title := title, content := content,
                             publisherId := publisherId, updatedAt := now }) s,
         .success)

/-- `delete_article_view` (`views.py`), POST.  Deleting the row also
deletes its m2m junction rows in newsletters. -/
def delete_article_view (userId : Nat) (role : Role) (pk : Nat)
    (s : State) : State × ViewOutcome :=
  if !hasPerm role .delete_article then (s, .forbidden)
  else
    match getArticle s pk with
    | none => (s, .notFound)
    | some a =>
      if role == .journalist && a.authorId != userId then (s, .deniedOwnership)
      else
        ({ s with
            articles := s.articles.filter (fun b => b.id != pk),
            newsletters := s.newsletters.map
              (fun n => { n with articleIds := n.articleIds.filter (fun i => i != pk) }) },
         .success)

/-- `create_newsletter_view` (`views.py`), POST with a valid form;
`newId` is the fresh autoincrement pk the database assigns. -/
def create_newsletter_view (userId : Nat) (role : Role) (newId : Nat)
    (title description : String) (articleIds : List Nat) (now : Nat)
    (s : State) : State × ViewOutcome :=
  if !hasPerm role .add_newsletter then (s, .forbidden)
  else
    ({ s with newsletters :=
        s.newsletters ++ [⟨newId, title, description, userId, articleIds, now⟩] },
     .success)

/-- `edit_newsletter_view` (`views.py`), POST with a valid form; the
form fields are `["title", "description", "articles"]`. -/
def edit_newsletter_view (userId : Nat) (role : Role) (pk : Nat)
    (title description : String) (articleIds : List Nat)
    (s : State) : State × ViewOutcome :=
  if !hasPerm role .change_newsletter then (s, .forbidden)
  else
    match getNewsletter s pk with
    | none => (s, .notFound)
    | some n =>
      if role == .journalist && n.authorId != userId then (s, .deniedOwnership)
      else
        let upd := fun m : Newsletter =>
          if m.id == pk then
            { m with title := title, description := description,
                     articleIds := articleIds }
          else m
        ({ s with newsletters := s.newsletters.map upd }, .success)

/-- `delete_newsletter_view` (`views.py`), POST.  The source performs no
authorship check here: any holder of `delete_newsletter` deletes. -/
def delete_newsletter_view (_userId : Nat) (role : Role) (pk : Nat)
    (s : State) : State × ViewOutcome :=
  if !hasPerm role .delete_newsletter then (s, .forbidden)
  else
    match getNewsletter s pk with
    | none => (s, .notFound)
    | some _ =>
      ({ s with newsletters := s.newsletters.filter (fun n => n.id != pk) },
       .success)

/-- Outcome of the two toggle views. -/
inductive ToggleOutcome where
  | notFound
  /-- `messages.success("Subscribed to ...")` / `("Following ...")`. -/
  | added
  /-- `messages.info("Unsubscribed from ...")` / `("Unfollowed ...")`. -/
  | removed
deriving DecidableEq, Repr

/-- `subscribe_publisher_view` (`views.py`): membership toggle on
`subscribed_publishers`. -/
def subscribe_publisher_view (userId pk : Nat) (s : State) :
    State × ToggleOutcome :=
  match getPublisher s pk with
  | none => (s, .notFound)
  | some _ =>
    if (userId, pk) ∈ s.subsPub then
      ({ s with subsPub := s.subsPub.erase (userId, pk) }, .removed)
    else
      ({ s with subsPub := insert (userId, pk) s.subsPub }, .added)

/-- `subscribe_journalist_view` (`views.py`): the 404 lookup also
requires `role="journalist"` on the target. -/
def subscribe_journalist_view (userId pk : Nat) (s : State) :
    State × ToggleOutcome :=
  match getJournalist s pk with
  | none => (s, .notFound)
  | some _ =>
    if (userId, pk) ∈ s.subsJour then
      ({ s with subsJour := s.subsJour.erase (userId, pk) }, .removed)
    else
      ({ s with subsJour := insert (userId, pk) s.subsJour }, .added)

/-- Outcome of `join_publisher_view`. -/
inductive JoinOutcome where
  | notFound
  | joinedAsJournalist
  | joinedAsEditor
  /-- `messages.error("Only journalists and editors can join publishers!")`. -/
  | deniedRole
deriving DecidableEq, Repr

/-- `join_publisher_view` (`views.py`), POST: adds by role, readers get
an error message and no write. -/
def join_publisher_view (userId : Nat) (role : Role) (pk : Nat)
    (s : State) : State × JoinOutcome :=
  match getPublisher s pk with
  | none => (s, .notFound)
  | some _ =>
    match role with
    | .journalist =>
        ({ s with pubJournalists := insert (pk, userId) s.pubJournalists },
         .joinedAsJournalist)
    | .editor =>
        ({ s with pubEditors := insert (pk, userId) s.pubEditors },
         .joinedAsEditor)
    | .reader => (s, .deniedRole)

/-- Outcome of `leave_publisher_view`. -/
inductive LeaveOutcome where
  | notFound
  | left
  /-- no branch matches the role: bare redirect. -/
  | ignored
deriving DecidableEq, Repr

/-- `leave_publisher_view` (`views.py`), POST. -/
def leave_publisher_view (userId : Nat) (role : Role) (pk : Nat)
    (s : State) : State × LeaveOutcome :=
  match getPublisher s pk with
  | none => (s, .notFound)
  | some _ =>
    match role with
    | .journalist =>
        ({ s with pubJournalists := s.pubJournalists.erase (pk, userId) }, .left)
    | .editor =>
        ({ s with pubEditors := s.pubEditors.erase (pk, userId) }, .left)
    | .reader => (s, .ignored)

/-! ## Notification dispatch (`utils.py`) -/

/-- What the outbound social-media HTTP call would do: return a response
or raise one of the exceptions the handler distinguishes. -/
inductive TwitterWire where
  /-- `requests.post` returned `(status_code, text)`. -/
  | resp (statusCode : Nat) (body : String)
  /-- `requests.exceptions.ConnectionError` raised. -/
  | connError
  /-- `requests.exceptions.Timeout` raised. -/
  | timeout
  /-- any other exception raised. -/
  | raised (msg : String)
deriving DecidableEq, Repr

/-- Environment outcomes for one approval request: `emailRaised = some e`
means the SMTP transport raises `e`; `none` means it delivers. -/
structure World where
  emailRaised : Option String
  twitter : TwitterWire
deriving DecidableEq, Repr

/-- `django.core.mail.send_mail` with `fail_silently=False`: raises
exactly when the transport fails. -/
def send_mail (w : World) : Except String Unit :=
  match w.emailRaised with
  | none => .ok ()
  | some e => .error e

/-- What `send_approval_emails` printed/logged. -/
inductive EmailLog where
  /-- early `return` on empty subscriber list. -/
  | noSubscribers
  /-- `subscriber_emails` empty: nothing attempted. -/
  | noEmailAddresses
  /-- the one batch email went out to `count` addresses. -/
  | sent (count : Nat)
  /-- `except Exception`: failure logged and swallowed. -/
  | sendFailed (err : String)
deriving DecidableEq, Repr

/-- `send_approval_emails` (`utils.py`): audience from
`get_article_subscribers`, addresses filtered by `if subscriber.email`,
one `send_mail` guarded by `try/except Exception`.  The `Except` layer
is the Python exception channel: the handler catches everything, so the
returned value is `.ok` on every path. -/
def send_approval_emails (s : State) (a : Article) (w : World) :
    Except String EmailLog :=
  let subscribers := get_article_subscribers s a
  if subscribers.isEmpty then .ok .noSubscribers
  else
    let subscriber_emails :=
      (subscribers.filter (fun u => u.email != "")).map User.email
    if subscriber_emails.isEmpty then .ok .noEmailAddresses
    else
      match send_mail w with
      | .ok () => .ok (.sent subscriber_emails.length)
      | .error e => .ok (.sendFailed e)

/-- The f-string composing the tweet body in `post_to_twitter`. -/
def tweet_text (title username : String) : String :=
  "New Article Published!\n\n" ++ title ++ "\n\nBy: " ++ username ++
    "\n\nRead it on NewsApp! #NewsApp #News"

/-- `if len(tweet_text) > 280: tweet_text = tweet_text[:277] + "..."` —
Python slicing counts code points, i.e. entries of `String.data`. -/
def truncate_tweet (t : String) : String :=
  if 280 < t.length then String.mk (t.data.take 277) ++ "..." else t

/-- What `post_to_twitter` printed/logged; the sent status text is kept
in the first two constructors. -/
inductive TweetLog where
  /-- `status_code == 201`. -/
  | posted (text : String)
  /-- non-201 response, logged. -/
  | failedStatus (code : Nat) (text : String)
  /-- `except ConnectionError` branch. -/
  | noConnection
  /-- `except Timeout` branch. -/
  | timedOut
  /-- `except Exception` branch. -/
  | failed (msg : String)
deriving DecidableEq, Repr

/-- `post_to_twitter` (`utils.py`): the whole body is inside `try:`, and
the three handlers (`ConnectionError`, `Timeout`, `Exception`) cover
every exception, so the returned value is `.ok` on every path. -/
def post_to_twitter (s : State) (a : Article) (w : World) :
    Except String TweetLog :=
  let text := truncate_tweet (tweet_text a.title (authorUsername s a))
  match w.twitter with
  | .resp code body =>
      if code == 201 then .ok (.posted text) else .ok (.failedStatus code body)
  | .connError => .ok .noConnection
  | .timeout => .ok .timedOut
  | .raised m => .ok (.failed m)

/-! ## Approval handlers -/

/-- The two lines `article.approved = True; article.save()` shared by
`approve_article_view` and `approve_article_api` (`save` refreshes
`updated_at`). -/
def approveSave (pk now : Nat) (s : State) : State :=
  updateArticle pk (fun a => { a with approved := true, updatedAt := now }) s

/-- How an approval request ends. -/
inductive ApproveOutcome where
  | forbidden
  | notFound
  | approvedOk (email : EmailLog) (tweet : TweetLog)
deriving DecidableEq, Repr

/-- `approve_article_view` (`views.py`), POST: permission gate
(`can_approve_article`), 404 lookup, persist `approved = True`, then the
two best-effort notification steps.  The view installs no exception
handler of its own, so an exception escaping either step would abort the
request (the `Except` layer). -/
def approve_article_view (role : Role) (pk now : Nat) (w : World)
    (s : State) : Except String (State × ApproveOutcome) :=
  if !hasPerm role .can_approve_article then .ok (s, .forbidden)
  else
    match getArticle s pk with
    | none => .ok (s, .notFound)
    | some a => do
      let article := { a with approved := true, updatedAt := now }
      let s1 := approveSave pk now s
      let emailLog ← send_approval_emails s1 article w
      let tweetLog ← post_to_twitter s1 article w
      .ok (s1, .approvedOk emailLog tweetLog)

/-- `approve_article_api` (`api_views.py`): role gate is a literal
`request.user.role != "editor"` check, then the same sequence. -/
def approve_article_api (role : Role) (pk now : Nat) (w : World)
    (s : State) : Except String (State × ApproveOutcome) :=
  if role != .editor then .ok (s, .forbidden)
  else
    match getArticle s pk with
    | none => .ok (s, .notFound)
    | some a => do
      let article := { a with approved := true, updatedAt := now }
      let s1 := approveSave pk now s
      let emailLog ← send_approval_emails s1 article w
      let tweetLog ← post_to_twitter s1 article w
      .ok (s1, .approvedOk emailLog tweetLog)

/-- State effect of the server approve view, notifications aside. -/
def approve_form_state (role : Role) (pk now : Nat) (s : State) : State :=
  if !hasPerm role .can_approve_article then s
  else
    match getArticle s pk with
    | none => s
    | some _ => approveSave pk now s

/-- State effect of the API approve endpoint, notifications aside. -/
def approve_api_state (role : Role) (pk now : Nat) (s : State) : State :=
  if role != .editor then s
  else
    match getArticle s pk with
    | none => s
    | some _ => approveSave pk now s

/-! ## JSON API detail endpoints (`api_views.py`) -/

/-- HTTP method of a detail request. -/
inductive Method where
  | get
  | put
  | delete
deriving DecidableEq, Repr

/-- Response statuses the modelled endpoints produce. -/
inductive ApiStatus where
  | ok200
  | noContent204
  | forbidden403
  | notFound404
deriving DecidableEq, Repr

/-- `ArticleDetailView` for an authenticated user.  `get_permissions`
gives `IsAuthenticated` for GET and `IsEditorOrJournalist` otherwise,
and the framework checks permissions before the object lookup; the
lookup runs inside `get_queryset() = Article.objects.filter(approved=True)`.
A PUT writes the serializer's writable fields, `title` and `content`
(`author`/`publisher` are nested read-only, `approved`/timestamps are in
`read_only_fields`); `save()` refreshes `updated_at`. -/
def article_detail_api (m : Method) (role : Role) (pk : Nat)
    (title content : String) (now : Nat) (s : State) : State × ApiStatus :=
  if m != .get && !(role == .journalist || role == .editor) then
    (s, .forbidden403)
  else
    match (s.articles.filter (fun a => a.approved)).find? (fun a => a.id == pk) with
    | none => (s, .notFound404)
    | some _ =>
      match m with
      | .get => (s, .ok200)
      | .put =>
          (updateArticle pk
            (fun b => { b with title := title, content := content,
                               updatedAt := now }) s,
           .ok200)
      | .delete =>
          ({ s with
              articles := s.articles.filter (fun b => b.id != pk),
              newsletters := s.newsletters.map
                (fun n => { n with articleIds := n.articleIds.filter (fun i => i != pk) }) },
           .noContent204)

/-- `NewsletterDetailView` for an authenticated user: same permission
split, queryset unrestricted, no authorship check.  The serializer's
writable fields are `title` and `description` (`articles` and `author`
are read-only). -/
def newsletter_detail_api (m : Method) (role : Role) (pk : Nat)
    (title description : String) (s : State) : State × ApiStatus :=
  if m != .get && !(role == .journalist || role == .editor) then
    (s, .forbidden403)
  else
    match getNewsletter s pk with
    | none => (s, .notFound404)
    | some _ =>
      match m with
      | .get => (s, .ok200)
      | .put =>
          let upd := fun n : Newsletter =>
            if n.id == pk then { n with title := title, description := description }
            else n
          ({ s with newsletters := s.newsletters.map upd }, .ok200)
      | .delete =>
          ({ s with newsletters := s.newsletters.filter (fun n => n.id != pk) },
           .noContent204)

/-! ## Subscribed-content query (`api_views.py`, `SubscribedArticlesView`) -/

/-- The row filter of the queryset:
`Q(publisher__in=subscribed_publishers) | Q(author__in=subscribed_journalists)`
conjoined with `approved=True`.  A null `publisher` matches no `__in`
list. -/
def inSubscribedFeed (s : State) (userId : Nat) (a : Article) : Bool :=
  ((match a.publisherId with
    | some p => decide ((userId, p) ∈ s.subsPub)
    | none => false)
   || decide ((userId, a.authorId) ∈ s.subsJour))
  && a.approved

/-- `order_by("-created_at")`. -/
def orderByCreatedDesc (l : List Article) : List Article :=
  l.mergeSort (fun a b => decide (b.createdAt ≤ a.createdAt))

/-- `SubscribedArticlesView.get_queryset`. -/
def subscribed_articles_queryset (s : State) (userId : Nat) : List Article :=
  orderByCreatedDesc (s.articles.filter (inSubscribedFeed s userId))

/-! ## The system's operations as one step relation -/

/-- Every mutating operation the two surfaces expose over the store,
with the requesting user's id/role and the request payload baked into
the constructor. -/
inductive Op where
  | editArticleForm (userId : Nat) (role : Role) (pk : Nat)
      (title content : String) (publisherId : Option Nat) (now : Nat)
  | deleteArticleForm (userId : Nat) (role : Role) (pk : Nat)
  | articleApi (m : Method) (role : Role) (pk : Nat)
      (title content : String) (now : Nat)
  | approveForm (role : Role) (pk now : Nat)
  | approveApi (role : Role) (pk now : Nat)
  | createNewsletterForm (userId : Nat) (role : Role) (newId : Nat)
      (title description : String) (articleIds : List Nat) (now : Nat)
  | editNewsletterForm (userId : Nat) (role : Role) (pk : Nat)
      (title description : String) (articleIds : List Nat)
  | deleteNewsletterForm (userId : Nat) (role : Role) (pk : Nat)
  | newsletterApi (m : Method) (role : Role) (pk : Nat)
      (title description : String)
  | togglePublisherSub (userId pk : Nat)
  | toggleJournalistSub (userId pk : Nat)
  | joinPublisher (userId : Nat) (role : Role) (pk : Nat)
  | leavePublisher (userId : Nat) (role : Role) (pk : Nat)
deriving DecidableEq, Repr

/-- The store after one operation. -/
def step (op : Op) (s : State) : State :=
  match op with
  | .editArticleForm u r pk t c p now => (edit_article_view u r pk t c p now s).1
  | .deleteArticleForm u r pk => (delete_article_view u r pk s).1
  | .articleApi m r pk t c now => (article_detail_api m r pk t c now s).1
  | .approveForm r pk now => approve_form_state r pk now s
  | .approveApi r pk now => approve_api_state r pk now s
  | .createNewsletterForm u r nid t d arts now =>
      (create_newsletter_view u r nid t d arts now s).1
  | .editNewsletterForm u r pk t d arts => (edit_newsletter_view u r pk t d arts s).1
  | .deleteNewsletterForm u r pk => (delete_newsletter_view u r pk s).1
  | .newsletterApi m r pk t d => (newsletter_detail_api m r pk t d s).1
  | .togglePublisherSub u pk => (subscribe_publisher_view u pk s).1
  | .toggleJournalistSub u pk => (subscribe_journalist_view u pk s).1
  | .joinPublisher u r pk => (join_publisher_view u r pk s).1
  | .leavePublisher u r pk => (leave_publisher_view u r pk s).1

/-- Whether `op` is one of the two approve actions. -/
def opIsApprove (op : Op) : Bool :=
  match op with
  | .approveForm _ _ _ => true
  | .approveApi _ _ _ => true
  | _ => false

/-- Whether `op` is an approve action that passes its permission gate
and targets article `i`. -/
def opApproves (op : Op) (i : Nat) : Bool :=
  match op with
  | .approveForm r pk _ => pk == i && hasPerm r .can_approve_article
  | .approveApi r pk _ => pk == i && r == .editor
  | _ => false

/-! ## A concrete store used to evaluate the handlers -/

/-- Four registered users: a reader, two journalists, an editor. -/
def sampleUsers : List User :=
  [⟨1, "alice", "alice@example.com", .reader⟩,
   ⟨2, "bob", "bob@example.com", .journalist⟩,
   ⟨3, "carol", "carol@example.com", .editor⟩,
   ⟨4, "dan", "", .journalist⟩]

/-- A populated store: one publisher, one pending and two approved
articles, one newsletter, the reader subscribed to the publisher and
following journalist 2. -/
def s0 : State where
  users := sampleUsers
  publishers := [⟨10, "Daily Planet", 0⟩]
  articles :=
    [⟨1, "Pending story", "pending body", 2, some 10, 5, 5, false⟩,
     ⟨2, "Live story", "live body", 2, none, 7, 7, true⟩,
     ⟨3, "Old story", "old body", 4, some 10, 6, 6, true⟩]
  newsletters := [⟨1, "Weekly", "weekly digest", 2, [2], 8⟩]
  subsPub := {(1, 10)}
  subsJour := {(1, 2)}
  pubJournalists := ∅
  pubEditors := ∅

/-- An environment where both notification channels fail: the SMTP
transport raises and the social API is unreachable. -/
def outageWorld : World where
  emailRaised := some "smtp connection refused"
  twitter := .connError

/-- A 300-character title, long enough to overflow the tweet budget. -/
def longTitle : String := String.mk (List.replicate 300 'a')

/-! ## Helper lemmas on row lookup -/

/-- `find?` by id commutes with an id-preserving row map. -/
theorem find?_map_of_id (l : List Article) (i : Nat) (g : Article → Article)
    (hg : ∀ x, (g x).id = x.id) :
    (l.map g).find? (fun x => x.id == i) =
      (l.find? (fun x => x.id == i)).map g := by
  induction l with
  | nil => rfl
  | cons x t ih =>
    simp only [List.map_cons, List.find?_cons]
    by_cases hx : x.id == i
    · have : (g x).id == i := by rw [hg x]; exact hx
      simp [hx, this]
    · have : ((g x).id == i) = false := by
        rw [hg x]; exact Bool.of_not_eq_true hx
      simp [hx, this, ih]

/-- `find?` is unchanged by filtering with a weaker predicate. -/
theorem find?_filter_of_imp (l : List Article) (p q : Article → Bool)
    (hpq : ∀ x, p x = true → q x = true) :
    (l.filter q).find? p = l.find? p := by
  induction l with
  | nil => rfl
  | cons x t ih =>
    by_cases hq : q x
    · by_cases hp : p x
      · simp [List.filter_cons, hq, List.find?_cons, hp]
      · simp [List.filter_cons, hq, List.find?_cons, hp, ih]
    · have hp : p x = false := by
        cases hpx : p x
        · rfl
        · exact absurd (hpq x hpx) hq
      simp [List.filter_cons, hq, List.find?_cons, hp, ih]

/-- `find?` after filtering away every matching row yields nothing. -/
theorem find?_filter_of_excl (l : List Article) (p q : Article → Bool)
    (hpq : ∀ x, p x = true → q x = false) :
    (l.filter q).find? p = none := by
  rw [List.find?_eq_none]
  intro x hx
  rcases List.mem_filter.mp hx with ⟨_, hqx⟩
  intro hpx
  rw [hpq x hpx] at hqx
  exact Bool.false_ne_true hqx

/-- With unique ids, looking a row up inside the approved-only queryset
finds the row exactly when that row is approved. -/
theorem find?_filter_approved (l : List Article) (pk : Nat) (a : Article)
    (hnd : (l.map Article.id).Nodup)
    (hfind : l.find? (fun x => x.id == pk) = some a) :
    (l.filter (fun x => x.approved)).find? (fun x => x.id == pk) =
      if a.approved then some a else none := by
  induction l with
  | nil => simp at hfind
  | cons x t ih =>
    simp only [List.map_cons, List.nodup_cons] at hnd
    rw [List.find?_cons] at hfind
    cases hx : (x.id == pk) with
    | true =>
      rw [hx] at hfind
      have hxa : x = a := by simpa using hfind
      subst hxa
      by_cases hap : x.approved
      · simp [List.filter_cons, hap, List.find?_cons, hx]
      · have hnone :
            (t.filter (fun y => y.approved)).find? (fun y => y.id == pk) = none := by
          rw [List.find?_eq_none]
          intro y hy hpy
          rcases List.mem_filter.mp hy with ⟨hyt, _⟩
          refine hnd.1 ?_
          have h2 : x.id = y.id := by
            have ha1 : x.id = pk := by simpa using hx
            have ha2 : y.id = pk := by simpa using hpy
            rw [ha1, ha2]
          rw [h2]
          exact List.mem_map_of_mem Article.id hyt
        simp [List.filter_cons, Bool.of_not_eq_true hap, hnone]
    | false =>
      rw [hx] at hfind
      have hfind' : t.find? (fun y => y.id == pk) = some a := by simpa using hfind
      by_cases hq : x.approved
      · simp only [List.filter_cons, hq, if_pos]
        rw [List.find?_cons, hx]
        exact ih hnd.2 hfind'
      · simp only [List.filter_cons, Bool.of_not_eq_true hq]
        simpa using ih hnd.2 hfind'

/-- A row found by id lookup carries that id. -/
theorem getArticle_id (s : State) (i : Nat) (a : Article)
    (h : getArticle s i = some a) : a.id = i := by
  have := List.find?_some h
  simpa using this

/-- Lookup after an id-preserving row update. -/
theorem getArticle_update (s : State) (pk i : Nat) (f : Article → Article)
    (hid : ∀ x, (f x).id = x.id) :
    getArticle (updateArticle pk f s) i =
      (getArticle s i).map (fun x => if x.id == pk then f x else x) := by
  unfold getArticle updateArticle
  apply find?_map_of_id
  intro x
  by_cases h : x.id == pk <;> simp [h, hid]

/-- Lookup after a row deletion. -/
theorem find?_id_filter_ne (l : List Article) (pk i : Nat) :
    (l.filter (fun b => b.id != pk)).find? (fun x => x.id == i) =
      if i = pk then none else l.find? (fun x => x.id == i) := by
  by_cases h : i = pk
  · subst h
    rw [if_pos rfl]
    apply find?_filter_of_excl
    intro x hx
    have hx' : x.id = i := by simpa using hx
    simp only [bne_eq_false_iff_eq]
    exact hx'
  · rw [if_neg h]
    apply find?_filter_of_imp
    intro x hx
    have hx' : x.id = i := by simpa using hx
    simp only [bne_iff_ne]
    omega

/-! ## C4: notification audience -/

/-- C4: the audience computed on approval is the publisher's subscriber
set when the article has a publisher and the author's follower set when
it has none; the unused relation never influences the result. -/
theorem c4_notification_audience (s : State) (a : Article) :
    (∀ p, a.publisherId = some p →
      (∀ u, u ∈ get_article_subscribers s a ↔
        u ∈ s.users ∧ (u.id, p) ∈ s.subsPub)
      ∧ (∀ sj : Finset (Nat × Nat),
          get_article_subscribers { s with subsJour := sj } a =
            get_article_subscribers s a))
    ∧ (a.publisherId = none →
      (∀ u, u ∈ get_article_subscribers s a ↔
        u ∈ s.users ∧ (u.id, a.authorId) ∈ s.subsJour)
      ∧ (∀ sp : Finset (Nat × Nat),
          get_article_subscribers { s with subsPub := sp } a =
            get_article_subscribers s a)) := by
  constructor
  · intro p hp
    constructor
    · intro u
      unfold get_article_subscribers
      rw [hp]
      rw [List.mem_filter]
      simp
    · intro sj
      unfold get_article_subscribers
      rw [hp]
  · intro hp
    constructor
    · intro u
      unfold get_article_subscribers
      rw [hp]
      rw [List.mem_filter]
      simp
    · intro sp
      unfold get_article_subscribers
      rw [hp]

/-- C4 witness: on the concrete store, article 3 (published by
publisher 10) notifies exactly the subscribed reader `alice`. -/
theorem c4_witness :
    get_article_subscribers s0 ⟨3, "Old story", "old body", 4, some 10, 6, 6, true⟩ =
      [⟨1, "alice", "alice@example.com", .reader⟩]
    ∧ (∀ u, u ∈ get_article_subscribers s0
        ⟨3, "Old story", "old body", 4, some 10, 6, 6, true⟩ ↔
        u ∈ s0.users ∧ (u.id, 10) ∈ s0.subsPub) :=
  ⟨by decide,
   ((c4_notification_audience s0
      ⟨3, "Old story", "old body", 4, some 10, 6, 6, true⟩).1 10 rfl).1⟩

/-! ## C9: tweet truncation -/

/-- C9: the status text handed to the social API never exceeds 280 code
points; an overlong composition is cut to its first 277 code points plus
`"..."`, a short one is sent unchanged. -/
theorem c9_tweet_length (title username : String) :
    (truncate_tweet (tweet_text title username)).length ≤ 280
    ∧ (280 < (tweet_text title username).length →
        truncate_tweet (tweet_text title username) =
          String.mk ((tweet_text title username).data.take 277) ++ "...")
    ∧ ((tweet_text title username).length ≤ 280 →
        truncate_tweet (tweet_text title username) = tweet_text title username) := by
  refine ⟨?_, ?_, ?_⟩
  · unfold truncate_tweet
    by_cases h : 280 < (tweet_text title username).length
    · rw [if_pos h]
      rw [String.length_append, String.length_mk, List.length_take]
      have h3 : ("..." : String).length = 3 := rfl
      rw [h3]
      have h4 := Nat.min_le_left 277 (tweet_text title username).data.length
      omega
    · rw [if_neg h]
      omega
  · intro h
    unfold truncate_tweet
    rw [if_pos h]
  · intro h
    unfold truncate_tweet
    rw [if_neg (by omega)]

/-- C9 witness: a 300-character title overflows the budget and the sent
text is the 277-code-point cut plus the ellipsis, exactly 280 long. -/
theorem c9_witness :
    280 < (tweet_text longTitle "bob").length
    ∧ truncate_tweet (tweet_text longTitle "bob") =
        String.mk ((tweet_text longTitle "bob").data.take 277) ++ "..."
    ∧ (truncate_tweet (tweet_text longTitle "bob")).length ≤ 280 := by
  have hlt : longTitle.length = 300 := by
    unfold longTitle
    rw [String.length_mk, List.length_replicate]
  have hlen : 280 < (tweet_text longTitle "bob").length := by
    unfold tweet_text
    rw [String.length_append, String.length_append, String.length_append,
        String.length_append, hlt]
    decide
  exact ⟨hlen, (c9_tweet_length longTitle "bob").2.1 hlen,
    (c9_tweet_length longTitle "bob").1⟩

/-! ## C8: readers cannot join publishers -/

/-- C8: a reader's join request ends in the error outcome with the
store fully unchanged (not a silent success), and the join action only
ever adds the requester, under the journalist role to the journalist
relation and under the editor role to the editor relation. -/
theorem c8_reader_join_denied (s : State) (uid pk : Nat) (pub : Publisher)
    (hpub : getPublisher s pk = some pub) :
    join_publisher_view uid .reader pk s = (s, .deniedRole)
    ∧ (∀ role : Role, ∀ q : Nat × Nat,
        q ∈ (join_publisher_view uid role pk s).1.pubJournalists →
          q ∈ s.pubJournalists ∨ (role = .journalist ∧ q = (pk, uid)))
    ∧ (∀ role : Role, ∀ q : Nat × Nat,
        q ∈ (join_publisher_view uid role pk s).1.pubEditors →
          q ∈ s.pubEditors ∨ (role = .editor ∧ q = (pk, uid))) := by
  refine ⟨?_, ?_, ?_⟩
  · unfold join_publisher_view
    rw [hpub]
  · intro role q hq
    unfold join_publisher_view at hq
    rw [hpub] at hq
    cases role with
    | reader => exact Or.inl hq
    | journalist =>
      rcases Finset.mem_insert.mp hq with h | h
      · exact Or.inr ⟨rfl, h⟩
      · exact Or.inl h
    | editor => exact Or.inl hq
  · intro role q hq
    unfold join_publisher_view at hq
    rw [hpub] at hq
    cases role with
    | reader => exact Or.inl hq
    | journalist => exact Or.inl hq
    | editor =>
      rcases Finset.mem_insert.mp hq with h | h
      · exact Or.inr ⟨rfl, h⟩
      · exact Or.inl h

/-- C8 witness: on the concrete store, the reader `alice` is turned
away from publisher 10 with the error outcome and no write. -/
theorem c8_witness :
    getPublisher s0 10 = some ⟨10, "Daily Planet", 0⟩
    ∧ join_publisher_view 1 .reader 10 s0 = (s0, .deniedRole) :=
  ⟨by decide,
   (c8_reader_join_denied s0 1 10 ⟨10, "Daily Planet", 0⟩ (by decide)).1⟩

/-! ## C7: subscription toggling -/

/-- C7: a publisher-subscription toggle flips exactly the requester's
membership pair, leaves every other pair and every other table
untouched, and a second toggle restores the store exactly; likewise for
the journalist-follow toggle. -/
theorem c7_subscription_toggle (s : State) (uid pk : Nat) :
    (∀ pub : Publisher, getPublisher s pk = some pub →
      ((uid, pk) ∈ (subscribe_publisher_view uid pk s).1.subsPub ↔
        (uid, pk) ∉ s.subsPub)
      ∧ (∀ q : Nat × Nat, q ≠ (uid, pk) →
          (q ∈ (subscribe_publisher_view uid pk s).1.subsPub ↔ q ∈ s.subsPub))
      ∧ (subscribe_publisher_view uid pk s).1.subsJour = s.subsJour
      ∧ (subscribe_publisher_view uid pk s).1.pubJournalists = s.pubJournalists
      ∧ (subscribe_publisher_view uid pk s).1.pubEditors = s.pubEditors
      ∧ (subscribe_publisher_view uid pk s).1.articles = s.articles
      ∧ (subscribe_publisher_view uid pk s).1.newsletters = s.newsletters
      ∧ (subscribe_publisher_view uid pk
          (subscribe_publisher_view uid pk s).1).1 = s)
    ∧ (∀ j : User, getJournalist s pk = some j →
      ((uid, pk) ∈ (subscribe_journalist_view uid pk s).1.subsJour ↔
        (uid, pk) ∉ s.subsJour)
      ∧ (∀ q : Nat × Nat, q ≠ (uid, pk) →
          (q ∈ (subscribe_journalist_view uid pk s).1.subsJour ↔ q ∈ s.subsJour))
      ∧ (subscribe_journalist_view uid pk s).1.subsPub = s.subsPub
      ∧ (subscribe_journalist_view uid pk s).1.pubJournalists = s.pubJournalists
      ∧ (subscribe_journalist_view uid pk s).1.pubEditors = s.pubEditors
      ∧ (subscribe_journalist_view uid pk s).1.articles = s.articles
      ∧ (subscribe_journalist_view uid pk s).1.newsletters = s.newsletters
      ∧ (subscribe_journalist_view uid pk
          (subscribe_journalist_view uid pk s).1).1 = s) := by
  constructor
  · intro pub hpub
    unfold subscribe_publisher_view
    rw [hpub]
    by_cases hm : (uid, pk) ∈ s.subsPub
    · rw [if_pos hm]
      refine ⟨by simp [hm], fun q hq => by simp [Finset.mem_erase, hq],
        rfl, rfl, rfl, rfl, rfl, ?_⟩
      have hpub2 : getPublisher { s with subsPub := s.subsPub.erase (uid, pk) } pk =
          some pub := hpub
      rw [hpub2]
      rw [if_neg (by simp)]
      rw [Finset.insert_erase hm]
    · rw [if_neg hm]
      refine ⟨by simp [hm], fun q hq => by simp [Finset.mem_insert, hq],
        rfl, rfl, rfl, rfl, rfl, ?_⟩
      have hpub2 : getPublisher { s with subsPub := insert (uid, pk) s.subsPub } pk =
          some pub := hpub
      rw [hpub2]
      rw [if_pos (Finset.mem_insert_self _ _)]
      rw [Finset.erase_insert hm]
  · intro j hj
    unfold subscribe_journalist_view
    rw [hj]
    by_cases hm : (uid, pk) ∈ s.subsJour
    · rw [if_pos hm]
      refine ⟨by simp [hm], fun q hq => by simp [Finset.mem_erase, hq],
        rfl, rfl, rfl, rfl, rfl, ?_⟩
      have hj2 : getJournalist { s with subsJour := s.subsJour.erase (uid, pk) } pk =
          some j := hj
      rw [hj2]
      rw [if_neg (by simp)]
      rw [Finset.insert_erase hm]
    · rw [if_neg hm]
      refine ⟨by simp [hm], fun q hq => by simp [Finset.mem_insert, hq],
        rfl, rfl, rfl, rfl, rfl, ?_⟩
      have hj2 : getJournalist { s with subsJour := insert (uid, pk) s.subsJour } pk =
          some j := hj
      rw [hj2]
      rw [if_pos (Finset.mem_insert_self _ _)]
      rw [Finset.erase_insert hm]

/-- C7 witness: on the concrete store, toggling reader 1 against
publisher 10 flips the pair, and double-toggling against publisher 10
and journalist 2 restores the store exactly. -/
theorem c7_witness :
    ((1, 10) ∈ (subscribe_publisher_view 1 10 s0).1.subsPub ↔ (1, 10) ∉ s0.subsPub)
    ∧ (subscribe_publisher_view 1 10 (subscribe_publisher_view 1 10 s0).1).1 = s0
    ∧ (subscribe_journalist_view 1 2 (subscribe_journalist_view 1 2 s0).1).1 = s0 := by
  have hp := (c7_subscription_toggle s0 1 10).1 ⟨10, "Daily Planet", 0⟩ (by decide)
  have hj := (c7_subscription_toggle s0 1 2).2
    ⟨2, "bob", "bob@example.com", .journalist⟩ (by decide)
  exact ⟨hp.1, hp.2.2.2.2.2.2.2, hj.2.2.2.2.2.2.2⟩

/-! ## C10: unapproved articles through the API detail endpoint -/

/-- C10 counterexample: the claim promises a 404 to every authenticated
user on GET, PUT and DELETE, but a reader's PUT against the unapproved
article 1 is stopped by the role gate with 403, not 404 (permissions are
checked before the queryset lookup). -/
theorem c10_counterexample :
    (getArticle s0 1).map Article.approved = some false
    ∧ (article_detail_api .put .reader 1 "t" "c" 9 s0).2 = .forbidden403
    ∧ (article_detail_api .put .reader 1 "t" "c" 9 s0).2 ≠ .notFound404 := by
  decide

/-- C10 (amended): a request against an unapproved article through the
API detail endpoint never reads, modifies or deletes it: the store is
unchanged and the response is 404 — except that a reader's PUT/DELETE is
rejected as 403 by the role gate before the lookup. -/
theorem c10_unapproved_api_hidden (s : State) (pk : Nat) (a : Article)
    (m : Method) (role : Role) (t c : String) (now : Nat)
    (hnd : (s.articles.map Article.id).Nodup)
    (ha : getArticle s pk = some a) (hnotapp : a.approved = false) :
    (article_detail_api m role pk t c now s).1 = s
    ∧ ((article_detail_api m role pk t c now s).2 = .notFound404
        ∨ (article_detail_api m role pk t c now s).2 = .forbidden403)
    ∧ ((m = .get ∨ role = .journalist ∨ role = .editor) →
        (article_detail_api m role pk t c now s).2 = .notFound404)
    ∧ ((m ≠ .get ∧ role = .reader) →
        (article_detail_api m role pk t c now s).2 = .forbidden403) := by
  have hfind :
      (s.articles.filter (fun x => x.approved)).find? (fun x => x.id == pk) = none := by
    have h := find?_filter_approved s.articles pk a hnd ha
    rw [hnotapp] at h
    simpa using h
  unfold article_detail_api
  cases m <;> cases role <;> simp [hfind]

/-- C10 witness: an editor's PUT against the unapproved article 1 of the
concrete store answers 404 and writes nothing. -/
theorem c10_witness :
    ((s0.articles.map Article.id).Nodup
      ∧ getArticle s0 1 = some ⟨1, "Pending story", "pending body", 2, some 10, 5, 5, false⟩)
    ∧ (article_detail_api .put .editor 1 "t" "c" 9 s0).1 = s0
    ∧ (article_detail_api .put .editor 1 "t" "c" 9 s0).2 = .notFound404 := by
  have h := c10_unapproved_api_hidden s0 1
    ⟨1, "Pending story", "pending body", 2, some 10, 5, 5, false⟩
    .put .editor "t" "c" 9 (by decide) (by decide) rfl
  exact ⟨⟨by decide, by decide⟩, h.1, h.2.2.1 (Or.inr (Or.inr rfl))⟩

/-! ## C5: journalist ownership checks -/

/-- C5 counterexample: newsletter 1 is authored by user 2, yet the
journalist user 4's server-rendered delete succeeds and removes it — the
delete-newsletter view never compares authorship. -/
theorem c5_counterexample :
    (getNewsletter s0 1).map Newsletter.authorId = some 2
    ∧ (delete_newsletter_view 4 .journalist 1 s0).2 = .success
    ∧ (delete_newsletter_view 4 .journalist 1 s0).1.newsletters = [] := by
  decide

/-- C5 (amended): on the server-rendered surface a journalist editing or
deleting another author's article, or editing another author's
newsletter, is denied with the store unchanged; but the server-rendered
newsletter delete and the JSON API article detail mutations gate only on
the role, so a journalist deletes any newsletter and updates or deletes
any approved article regardless of authorship. -/
theorem c5_journalist_ownership (s : State) (uid pk : Nat) :
    (∀ a t c p now, getArticle s pk = some a → a.authorId ≠ uid →
      edit_article_view uid .journalist pk t c p now s = (s, .deniedOwnership))
    ∧ (∀ a, getArticle s pk = some a → a.authorId ≠ uid →
      delete_article_view uid .journalist pk s = (s, .deniedOwnership))
    ∧ (∀ n t d arts, getNewsletter s pk = some n → n.authorId ≠ uid →
      edit_newsletter_view uid .journalist pk t d arts s = (s, .deniedOwnership))
    ∧ (∀ n, getNewsletter s pk = some n →
      delete_newsletter_view uid .journalist pk s =
        ({ s with newsletters := s.newsletters.filter (fun m => m.id != pk) }, .success))
    ∧ (∀ a t c now, (s.articles.map Article.id).Nodup →
        getArticle s pk = some a → a.approved = true →
      (article_detail_api .put .journalist pk t c now s).2 = .ok200
      ∧ (article_detail_api .delete .journalist pk t c now s).2 = .noContent204) := by
  refine ⟨?_, ?_, ?_, ?_, ?_⟩
  · intro a t c p now ha hne
    unfold edit_article_view
    rw [ha]
    simp [hasPerm, hne]
  · intro a ha hne
    unfold delete_article_view
    rw [ha]
    simp [hasPerm, hne]
  · intro n t d arts hn hne
    unfold edit_newsletter_view
    rw [hn]
    simp [hasPerm, hne]
  · intro n hn
    unfold delete_newsletter_view
    rw [hn]
    simp [hasPerm]
  · intro a t c now hnd ha happ
    have hfind :
        (s.articles.filter (fun x => x.approved)).find? (fun x => x.id == pk) =
          some a := by
      have h := find?_filter_approved s.articles pk a hnd ha
      rw [happ] at h
      simpa using h
    constructor
    · unfold article_detail_api
      simp [hfind]
    · unfold article_detail_api
      simp [hfind]

/-- C5 witness: the journalist `dan` (user 4) cannot edit `bob`'s
article 2, yet deletes `bob`'s newsletter 1 and updates `bob`'s approved
article 2 through the API. -/
theorem c5_witness :
    (getArticle s0 2 = some ⟨2, "Live story", "live body", 2, none, 7, 7, true⟩
      ∧ (2 : Nat) ≠ 4)
    ∧ edit_article_view 4 .journalist 2 "t" "c" none 9 s0 = (s0, .deniedOwnership)
    ∧ delete_newsletter_view 4 .journalist 1 s0 =
        ({ s0 with newsletters := s0.newsletters.filter (fun m => m.id != 1) }, .success)
    ∧ (article_detail_api .put .journalist 2 "t" "c" 9 s0).2 = .ok200 := by
  refine ⟨⟨by decide, by decide⟩, ?_, ?_, ?_⟩
  · exact (c5_journalist_ownership s0 4 2).1
      ⟨2, "Live story", "live body", 2, none, 7, 7, true⟩ "t" "c" none 9
      (by decide) (by decide)
  · exact (c5_journalist_ownership s0 4 1).2.2.2.1
      ⟨1, "Weekly", "weekly digest", 2, [2], 8⟩ (by decide)
  · exact ((c5_journalist_ownership s0 4 2).2.2.2.2
      ⟨2, "Live story", "live body", 2, none, 7, 7, true⟩ "t" "c" 9
      (by decide) (by decide) rfl).1

/-! ## C6: approval state effect -/

/-- The saved row after the approve write. -/
theorem approveSave_lookup (s : State) (pk now : Nat) (a : Article)
    (ha : getArticle s pk = some a) :
    getArticle (approveSave pk now s) pk =
      some { a with approved := true, updatedAt := now } := by
  unfold approveSave
  rw [getArticle_update s pk pk
    (fun b => { b with approved := true, updatedAt := now }) (fun x => rfl), ha]
  have hid : a.id = pk := getArticle_id s pk a ha
  simp [hid]

/-- Rows other than the approved one are untouched by the write. -/
theorem approveSave_lookup_other (s : State) (pk now j : Nat) (hj : j ≠ pk) :
    getArticle (approveSave pk now s) j = getArticle s j := by
  unfold approveSave
  rw [getArticle_update s pk j
    (fun b => { b with approved := true, updatedAt := now }) (fun x => rfl)]
  cases hb : getArticle s j with
  | none => rfl
  | some b =>
    have hid : b.id = j := getArticle_id s j b hb
    simp [Option.map, hid, hj]

/-- Re-running the approve write at the same timestamp is a no-op on the
already-written store. -/
theorem approveSave_idem (s : State) (pk now : Nat) :
    approveSave pk now (approveSave pk now s) = approveSave pk now s := by
  unfold approveSave updateArticle
  simp only [List.map_map]
  have hg :
      ((fun a : Article =>
          if a.id == pk then { a with approved := true, updatedAt := now } else a) ∘
        (fun a : Article =>
          if a.id == pk then { a with approved := true, updatedAt := now } else a)) =
      (fun a : Article =>
        if a.id == pk then { a with approved := true, updatedAt := now } else a) := by
    funext x
    by_cases hx : x.id == pk <;> simp [Function.comp, hx]
  rw [hg]

/-- C6 counterexample: re-approving the already-approved article 2 at a
later instant is not a no-op — `save()` refreshes `updated_at`, so the
article's (API-visible) state changes. -/
theorem c6_counterexample :
    (getArticle s0 2).map Article.approved = some true
    ∧ approve_form_state .editor 2 9 s0 ≠ s0 := by
  decide

/-- C6 (amended): the approve action sets `approved = true` and is
idempotent (approving twice equals approving once); re-approving an
already-approved article leaves every field except the auto-maintained
`updated_at` timestamp unchanged — and is a strict no-op on the row only
when the timestamp coincides — while all other rows stay untouched; the
server view and the API endpoint have the same state effect. -/
theorem c6_approve_idempotent (role : Role) (s : State) (pk now : Nat)
    (a : Article) (ha : getArticle s pk = some a)
    (hperm : hasPerm role .can_approve_article = true) :
    getArticle (approve_form_state role pk now s) pk =
      some { a with approved := true, updatedAt := now }
    ∧ approve_form_state role pk now (approve_form_state role pk now s) =
        approve_form_state role pk now s
    ∧ (a.approved = true →
        getArticle (approve_form_state role pk now s) pk =
          some { a with updatedAt := now })
    ∧ (a.approved = true → now = a.updatedAt →
        getArticle (approve_form_state role pk now s) pk = some a)
    ∧ (∀ j, j ≠ pk →
        getArticle (approve_form_state role pk now s) j = getArticle s j)
    ∧ approve_api_state .editor pk now s = approve_form_state .editor pk now s := by
  have hstate : approve_form_state role pk now s = approveSave pk now s := by
    unfold approve_form_state
    rw [hperm, ha]
    simp
  refine ⟨?_, ?_, ?_, ?_, ?_, ?_⟩
  · rw [hstate]
    exact approveSave_lookup s pk now a ha
  · rw [hstate]
    have ha2 := approveSave_lookup s pk now a ha
    have hstate2 : approve_form_state role pk now (approveSave pk now s) =
        approveSave pk now (approveSave pk now s) := by
      unfold approve_form_state
      rw [hperm, ha2]
      simp
    rw [hstate2]
    exact approveSave_idem s pk now
  · intro happ
    rw [hstate, approveSave_lookup s pk now a ha]
    cases a with
    | mk i t c au pub cr up app =>
      simp only at happ
      rw [happ]
  · intro happ hnow
    rw [hstate, approveSave_lookup s pk now a ha]
    cases a with
    | mk i t c au pub cr up app =>
      simp only at happ hnow
      rw [happ, hnow]
  · intro j hj
    rw [hstate]
    exact approveSave_lookup_other s pk now j hj
  · unfold approve_api_state approve_form_state
    rfl

/-- C6 witness: the editor approves the pending article 1 of the
concrete store; the row flips to approved, and a second identical
approve step changes nothing further. -/
theorem c6_witness :
    (getArticle s0 1 = some ⟨1, "Pending story", "pending body", 2, some 10, 5, 5, false⟩
      ∧ hasPerm .editor .can_approve_article = true)
    ∧ getArticle (approve_form_state .editor 1 9 s0) 1 =
        some ⟨1, "Pending story", "pending body", 2, some 10, 5, 9, true⟩
    ∧ approve_form_state .editor 1 9 (approve_form_state .editor 1 9 s0) =
        approve_form_state .editor 1 9 s0 := by
  have h := c6_approve_idempotent .editor s0 1 9
    ⟨1, "Pending story", "pending body", 2, some 10, 5, 5, false⟩ (by decide) rfl
  exact ⟨⟨by decide, rfl⟩, h.1, h.2.1⟩

/-! ## C2: notification failures never abort an approval -/

/-- `send_approval_emails` never lets an exception escape: its
`except Exception` handler covers every transport failure. -/
theorem send_approval_emails_isOk (s : State) (a : Article) (w : World) :
    ∃ log, send_approval_emails s a w = .ok log := by
  unfold send_approval_emails
  by_cases h1 : (get_article_subscribers s a).isEmpty
  · exact ⟨.noSubscribers, by simp [h1]⟩
  · by_cases h2 :
      (((get_article_subscribers s a).filter (fun u => u.email != "")).map
        User.email).isEmpty
    · exact ⟨.noEmailAddresses, by simp [h1, h2]⟩
    · cases hw : w.emailRaised with
      | none =>
        exact ⟨.sent ((get_article_subscribers s a).filter
          (fun u => u.email != "")).length, by simp [h1, h2, send_mail, hw]⟩
      | some e =>
        exact ⟨.sendFailed e, by simp [h1, h2, send_mail, hw]⟩

/-- `post_to_twitter` never lets an exception escape: its three handlers
cover connection errors, timeouts and everything else. -/
theorem post_to_twitter_isOk (s : State) (a : Article) (w : World) :
    ∃ log, post_to_twitter s a w = .ok log := by
  unfold post_to_twitter
  cases hw : w.twitter with
  | resp code body =>
    by_cases h : code == 201
    · exact ⟨.posted (truncate_tweet (tweet_text a.title (authorUsername s a))),
        by simp [h]⟩
    · exact ⟨.failedStatus code body, by simp [h]⟩
  | connError => exact ⟨.noConnection, rfl⟩
  | timeout => exact ⟨.timedOut, rfl⟩
  | raised m => exact ⟨.failed m, rfl⟩

/-- C2: whatever the environment does to the email transport and the
social API, both approval handlers complete normally with
`approved = true` persisted, and the social post is attempted (its log
is produced) even when the email step failed. -/
theorem c2_approval_survives_outage (role : Role) (s : State)
    (pk now : Nat) (a : Article) (w : World)
    (ha : getArticle s pk = some a)
    (hperm : hasPerm role .can_approve_article = true) :
    (∃ el tl, approve_article_view role pk now w s =
        .ok (approveSave pk now s, .approvedOk el tl)
      ∧ post_to_twitter (approveSave pk now s)
          { a with approved := true, updatedAt := now } w = .ok tl)
    ∧ (getArticle (approveSave pk now s) pk).map Article.approved = some true
    ∧ (∃ el tl, approve_article_api .editor pk now w s =
        .ok (approveSave pk now s, .approvedOk el tl)
      ∧ post_to_twitter (approveSave pk now s)
          { a with approved := true, updatedAt := now } w = .ok tl) := by
  obtain ⟨el, hel⟩ := send_approval_emails_isOk (approveSave pk now s)
    { a with approved := true, updatedAt := now } w
  obtain ⟨tl, htl⟩ := post_to_twitter_isOk (approveSave pk now s)
    { a with approved := true, updatedAt := now } w
  refine ⟨⟨el, tl, ?_, htl⟩, ?_, ⟨el, tl, ?_, htl⟩⟩
  · unfold approve_article_view
    rw [hperm, ha]
    simp only [hel, htl]
    rfl
  · rw [approveSave_lookup s pk now a ha]
    rfl
  · unfold approve_article_api
    rw [ha]
    simp only [hel, htl]
    rfl

/-- C2 witness: with both channels down (SMTP raising, social API
unreachable) the editor's approval of article 1 still completes and
persists `approved = true`, and the social post was attempted. -/
theorem c2_witness :
    (getArticle s0 1 = some ⟨1, "Pending story", "pending body", 2, some 10, 5, 5, false⟩
      ∧ hasPerm .editor .can_approve_article = true)
    ∧ (∃ el tl, approve_article_view .editor 1 9 outageWorld s0 =
        .ok (approveSave 1 9 s0, .approvedOk el tl)
      ∧ post_to_twitter (approveSave 1 9 s0)
          ⟨1, "Pending story", "pending body", 2, some 10, 5, 9, true⟩ outageWorld = .ok tl)
    ∧ (getArticle (approveSave 1 9 s0) 1).map Article.approved = some true := by
  have h := c2_approval_survives_outage .editor s0 1 9
    ⟨1, "Pending story", "pending body", 2, some 10, 5, 5, false⟩ outageWorld
    (by decide) rfl
  exact ⟨⟨by decide, rfl⟩, h.1, h.2.1⟩

/-! ## C3: the subscribed-content query -/

/-- The row filter, read as a proposition. -/
theorem inSubscribedFeed_iff (s : State) (uid : Nat) (a : Article) :
    inSubscribedFeed s uid a = true ↔
      a.approved = true ∧
        ((∃ p, a.publisherId = some p ∧ (uid, p) ∈ s.subsPub)
          ∨ (uid, a.authorId) ∈ s.subsJour) := by
  unfold inSubscribedFeed
  cases hp : a.publisherId with
  | none =>
    simp [hp]
    tauto
  | some p =>
    simp [hp]
    tauto

/-- C3: the subscribed feed contains exactly the approved articles from
a subscribed publisher or a followed journalist, each row at most once,
ordered newest-first by creation time. -/
theorem c3_subscribed_feed (s : State) (uid : Nat)
    (hnd : (s.articles.map Article.id).Nodup) :
    (∀ a, a ∈ subscribed_articles_queryset s uid ↔
      a ∈ s.articles ∧ a.approved = true ∧
        ((∃ p, a.publisherId = some p ∧ (uid, p) ∈ s.subsPub)
          ∨ (uid, a.authorId) ∈ s.subsJour))
    ∧ ((subscribed_articles_queryset s uid).map Article.id).Nodup
    ∧ (subscribed_articles_queryset s uid).Sorted
        (fun a b => b.createdAt ≤ a.createdAt) := by
  have hperm : ∀ l : List Article,
      (orderByCreatedDesc l).Perm l := fun l => List.mergeSort_perm l _
  refine ⟨?_, ?_, ?_⟩
  · intro a
    unfold subscribed_articles_queryset
    rw [(hperm _).mem_iff, List.mem_filter, inSubscribedFeed_iff]
  · have hsub : ((s.articles.filter (inSubscribedFeed s uid)).map Article.id).Nodup :=
      ((List.filter_sublist _).map Article.id).nodup hnd
    exact (((hperm _).map Article.id).nodup_iff).mpr hsub
  · have h : (List.mergeSort (s.articles.filter (inSubscribedFeed s uid))
        (fun a b : Article => decide (b.createdAt ≤ a.createdAt))).Pairwise
        (fun a b : Article => decide (b.createdAt ≤ a.createdAt) = true) :=
      List.sorted_mergeSort
        (fun a b c h1 h2 => by
          simp only [decide_eq_true_eq] at h1 h2 ⊢
          omega)
        (fun a b => by
          simp only [Bool.or_eq_true, decide_eq_true_eq]
          omega)
        (s.articles.filter (inSubscribedFeed s uid))
    unfold subscribed_articles_queryset orderByCreatedDesc
    exact h.imp (fun hab => by simpa using hab)

/-- C3 witness: for reader 1 the concrete store yields exactly the two
approved articles (from the subscribed publisher 10 and the followed
journalist 2), newest first, and the pending article 1 is absent. -/
theorem c3_witness :
    ((s0.articles.map Article.id).Nodup)
    ∧ (∀ a, a ∈ subscribed_articles_queryset s0 1 ↔
        a ∈ s0.articles ∧ a.approved = true ∧
          ((∃ p, a.publisherId = some p ∧ (1, p) ∈ s0.subsPub)
            ∨ (1, a.authorId) ∈ s0.subsJour)) :=
  ⟨by decide, (c3_subscribed_feed s0 1 (by decide)).1⟩

/-! ## C1: the approved flag only rises -/

/-- The article-edit view either leaves the store alone or rewrites the
targeted row's form fields. -/
theorem edit_article_view_state (u : Nat) (r : Role) (pk : Nat)
    (t c : String) (p : Option Nat) (now : Nat) (s : State) :
    (edit_article_view u r pk t c p now s).1 = s
    ∨ (edit_article_view u r pk t c p now s).1 =
        updateArticle pk
          (fun b => { b with title := t, content := c,
                             publisherId := p, updatedAt := now }) s := by
  unfold edit_article_view
  split
  · exact Or.inl rfl
  · split
    · exact Or.inl rfl
    · split
      · exact Or.inl rfl
      · exact Or.inr rfl

/-- The article-delete view either leaves the store alone or removes the
targeted row (and its junction rows). -/
theorem delete_article_view_state (u : Nat) (r : Role) (pk : Nat) (s : State) :
    (delete_article_view u r pk s).1 = s
    ∨ (delete_article_view u r pk s).1 =
        { s with
            articles := s.articles.filter (fun b => b.id != pk),
            newsletters := s.newsletters.map
              (fun n => { n with articleIds := n.articleIds.filter (fun j => j != pk) }) } := by
  unfold delete_article_view
  split
  · exact Or.inl rfl
  · split
    · exact Or.inl rfl
    · split
      · exact Or.inl rfl
      · exact Or.inr rfl

/-- The API article detail endpoint leaves the store alone, rewrites the
serializer's writable fields, or removes the row. -/
theorem article_detail_api_state (m : Method) (r : Role) (pk : Nat)
    (t c : String) (now : Nat) (s : State) :
    (article_detail_api m r pk t c now s).1 = s
    ∨ (article_detail_api m r pk t c now s).1 =
        updateArticle pk
          (fun b => { b with title := t, content := c, updatedAt := now }) s
    ∨ (article_detail_api m r pk t c now s).1 =
        { s with
            articles := s.articles.filter (fun b => b.id != pk),
            newsletters := s.newsletters.map
              (fun n => { n with articleIds := n.articleIds.filter (fun j => j != pk) }) } := by
  unfold article_detail_api
  split
  · exact Or.inl rfl
  · split
    · exact Or.inl rfl
    · split
      · exact Or.inl rfl
      · exact Or.inr (Or.inl rfl)
      · exact Or.inr (Or.inr rfl)

/-- The server approve view leaves the store alone or performs the
approve write on the targeted row. -/
theorem approve_form_state_cases (r : Role) (pk now : Nat) (s : State) :
    approve_form_state r pk now s = s
    ∨ approve_form_state r pk now s = approveSave pk now s := by
  unfold approve_form_state
  split
  · exact Or.inl rfl
  · split
    · exact Or.inl rfl
    · exact Or.inr rfl

/-- The API approve endpoint leaves the store alone or performs the
approve write on the targeted row. -/
theorem approve_api_state_cases (r : Role) (pk now : Nat) (s : State) :
    approve_api_state r pk now s = s
    ∨ approve_api_state r pk now s = approveSave pk now s := by
  unfold approve_api_state
  split
  · exact Or.inl rfl
  · split
    · exact Or.inl rfl
    · exact Or.inr rfl

/-- Newsletter, subscription and membership operations never touch the
article table. -/
theorem step_articles_eq (op : Op) (s : State) :
    (match op with
      | .createNewsletterForm _ _ _ _ _ _ _ => True
      | .editNewsletterForm _ _ _ _ _ _ => True
      | .deleteNewsletterForm _ _ _ => True
      | .newsletterApi _ _ _ _ _ => True
      | .togglePublisherSub _ _ => True
      | .toggleJournalistSub _ _ => True
      | .joinPublisher _ _ _ => True
      | .leavePublisher _ _ _ => True
      | _ => False) →
    (step op s).articles = s.articles := by
  intro hop
  cases op with
  | createNewsletterForm u r nid t d arts now =>
    show ((create_newsletter_view u r nid t d arts now s).1).articles = s.articles
    unfold create_newsletter_view
    split <;> rfl
  | editNewsletterForm u r pk t d arts =>
    show ((edit_newsletter_view u r pk t d arts s).1).articles = s.articles
    unfold edit_newsletter_view
    split
    · rfl
    · split
      · rfl
      · split <;> rfl
  | deleteNewsletterForm u r pk =>
    show ((delete_newsletter_view u r pk s).1).articles = s.articles
    unfold delete_newsletter_view
    split
    · rfl
    · split <;> rfl
  | newsletterApi m r pk t d =>
    show ((newsletter_detail_api m r pk t d s).1).articles = s.articles
    unfold newsletter_detail_api
    split
    · rfl
    · split
      · rfl
      · split <;> rfl
  | togglePublisherSub u pk =>
    show ((subscribe_publisher_view u pk s).1).articles = s.articles
    unfold subscribe_publisher_view
    split
    · rfl
    · split <;> rfl
  | toggleJournalistSub u pk =>
    show ((subscribe_journalist_view u pk s).1).articles = s.articles
    unfold subscribe_journalist_view
    split
    · rfl
    · split <;> rfl
  | joinPublisher u r pk =>
    show ((join_publisher_view u r pk s).1).articles = s.articles
    unfold join_publisher_view
    split
    · rfl
    · split <;> rfl
  | leavePublisher u r pk =>
    show ((leave_publisher_view u r pk s).1).articles = s.articles
    unfold leave_publisher_view
    split
    · rfl
    · split <;> rfl
  | editArticleForm u r pk t c p now => cases hop
  | deleteArticleForm u r pk => cases hop
  | articleApi m r pk t c now => cases hop
  | approveForm r pk now => cases hop
  | approveApi r pk now => cases hop

/-- The approved flag survives any id- and approved-preserving row
rewrite. -/
theorem approved_of_update {f : Article → Article} (s : State) (pk i : Nat)
    (a a' : Article) (h : getArticle s i = some a)
    (h' : getArticle (updateArticle pk f s) i = some a')
    (hf : ∀ x, (f x).id = x.id) (hap : ∀ x, (f x).approved = x.approved) :
    a'.approved = a.approved := by
  rw [getArticle_update s pk i f hf, h] at h'
  have h2 : (if a.id == pk then f a else a) = a' := by simpa using h'
  by_cases hx : a.id == pk
  · rw [if_pos hx] at h2
    rw [← h2, hap]
  · rw [if_neg hx] at h2
    rw [← h2]

/-- Lookup in a store whose article table lost the rows with id `pk`. -/
theorem getArticle_filter_ne (s : State) (pk i : Nat) (ns : List Newsletter) :
    getArticle
      { s with articles := s.articles.filter (fun b => b.id != pk),
               newsletters := ns } i =
      if i = pk then none else getArticle s i := by
  unfold getArticle
  exact find?_id_filter_ne s.articles pk i

/-- Two stores with the same article table resolve a lookup alike. -/
theorem c1_of_articles_eq (s s' : State) (i : Nat) (a a' : Article)
    (hart : s'.articles = s.articles)
    (h : getArticle s i = some a) (h' : getArticle s' i = some a') :
    a' = a := by
  unfold getArticle at h h'
  rw [hart, h] at h'
  exact (Option.some.inj h').symm

/-- C1: across every operation either surface exposes, a surviving
article row keeps its `approved` value except under the two approve
actions, which can only set it to `true`; in particular `approved`
never falls back from `true` to `false`, and a gate-passing approve
targeting the row forces it to `true`. -/
theorem c1_approved_monotone (op : Op) (s : State) (i : Nat) (a a' : Article)
    (h : getArticle s i = some a) (h' : getArticle (step op s) i = some a') :
    (opIsApprove op = false → a'.approved = a.approved)
    ∧ (a.approved = true → a'.approved = true)
    ∧ (opApproves op i = true → a'.approved = true) := by
  cases op with
  | editArticleForm u r pk t c p now =>
    have hpres : a'.approved = a.approved := by
      simp only [step] at h'
      rcases edit_article_view_state u r pk t c p now s with hs | hs
      · rw [hs, h] at h'
        rw [← Option.some.inj h']
      · rw [hs] at h'
        exact approved_of_update s pk i a a' h h' (fun x => rfl) (fun x => rfl)
    exact ⟨fun _ => hpres, fun ht => hpres.trans ht,
      fun hap => by simp [opApproves] at hap⟩
  | deleteArticleForm u r pk =>
    have hpres : a'.approved = a.approved := by
      simp only [step] at h'
      rcases delete_article_view_state u r pk s with hs | hs
      · rw [hs, h] at h'
        rw [← Option.some.inj h']
      · rw [hs, getArticle_filter_ne] at h'
        by_cases hip : i = pk
        · rw [if_pos hip] at h'
          exact Option.noConfusion h'
        · rw [if_neg hip, h] at h'
          rw [← Option.some.inj h']
    exact ⟨fun _ => hpres, fun ht => hpres.trans ht,
      fun hap => by simp [opApproves] at hap⟩
  | articleApi m r pk t c now =>
    have hpres : a'.approved = a.approved := by
      simp only [step] at h'
      rcases article_detail_api_state m r pk t c now s with hs | hs | hs
      · rw [hs, h] at h'
        rw [← Option.some.inj h']
      · rw [hs] at h'
        exact approved_of_update s pk i a a' h h' (fun x => rfl) (fun x => rfl)
      · rw [hs, getArticle_filter_ne] at h'
        by_cases hip : i = pk
        · rw [if_pos hip] at h'
          exact Option.noConfusion h'
        · rw [if_neg hip, h] at h'
          rw [← Option.some.inj h']
    exact ⟨fun _ => hpres, fun ht => hpres.trans ht,
      fun hap => by simp [opApproves] at hap⟩
  | approveForm r pk now =>
    simp only [step] at h'
    have hup : ∀ b', getArticle (approveSave pk now s) i = some b' →
        (b'.approved = a.approved ∨ b'.approved = true) := by
      intro b' hb'
      unfold approveSave at hb'
      rw [getArticle_update s pk i
        (fun x => { x with approved := true, updatedAt := now })
        (fun x => rfl), h] at hb'
      have h2 : (if a.id == pk then
          { a with approved := true, updatedAt := now } else a) = b' := by
        simpa using hb'
      by_cases hx : a.id == pk
      · rw [if_pos hx] at h2
        exact Or.inr (by rw [← h2])
      · rw [if_neg hx] at h2
        exact Or.inl (by rw [← h2])
    refine ⟨fun hfalse => by simp [opIsApprove] at hfalse, ?_, ?_⟩
    · intro ht
      rcases approve_form_state_cases r pk now s with hs | hs
      · rw [hs, h] at h'
        rw [← Option.some.inj h']
        exact ht
      · rw [hs] at h'
        rcases hup a' h' with hcase | hcase
        · exact hcase.trans ht
        · exact hcase
    · intro hap
      simp only [opApproves, Bool.and_eq_true, beq_iff_eq] at hap
      obtain ⟨hpk, hgate⟩ := hap
      subst hpk
      have hs : approve_form_state r pk now s = approveSave pk now s := by
        unfold approve_form_state
        rw [hgate, h]
        simp
      rw [hs, approveSave_lookup s pk now a h] at h'
      rw [← Option.some.inj h']
  | approveApi r pk now =>
    simp only [step] at h'
    have hup : ∀ b', getArticle (approveSave pk now s) i = some b' →
        (b'.approved = a.approved ∨ b'.approved = true) := by
      intro b' hb'
      unfold approveSave at hb'
      rw [getArticle_update s pk i
        (fun x => { x with approved := true, updatedAt := now })
        (fun x => rfl), h] at hb'
      have h2 : (if a.id == pk then
          { a with approved := true, updatedAt := now } else a) = b' := by
        simpa using hb'
      by_cases hx : a.id == pk
      · rw [if_pos hx] at h2
        exact Or.inr (by rw [← h2])
      · rw [if_neg hx] at h2
        exact Or.inl (by rw [← h2])
    refine ⟨fun hfalse => by simp [opIsApprove] at hfalse, ?_, ?_⟩
    · intro ht
      rcases approve_api_state_cases r pk now s with hs | hs
      · rw [hs, h] at h'
        rw [← Option.some.inj h']
        exact ht
      · rw [hs] at h'
        rcases hup a' h' with hcase | hcase
        · exact hcase.trans ht
        · exact hcase
    · intro hap
      simp only [opApproves, Bool.and_eq_true, beq_iff_eq] at hap
      obtain ⟨hpk, hrole⟩ := hap
      subst hpk
      subst hrole
      have hs : approve_api_state .editor pk now s = approveSave pk now s := by
        unfold approve_api_state
        rw [h]
        simp
      rw [hs, approveSave_lookup s pk now a h] at h'
      rw [← Option.some.inj h']
  | createNewsletterForm u r nid t d arts now =>
    have ha' : a' = a := c1_of_articles_eq s _ i a a'
      (step_articles_eq (.createNewsletterForm u r nid t d arts now) s trivial) h h'
    exact ⟨fun _ => by rw [ha'], fun ht => by rw [ha']; exact ht,
      fun hap => by simp [opApproves] at hap⟩
  | editNewsletterForm u r pk t d arts =>
    have ha' : a' = a := c1_of_articles_eq s _ i a a'
      (step_articles_eq (.editNewsletterForm u r pk t d arts) s trivial) h h'
    exact ⟨fun _ => by rw [ha'], fun ht => by rw [ha']; exact ht,
      fun hap => by simp [opApproves] at hap⟩
  | deleteNewsletterForm u r pk =>
    have ha' : a' = a := c1_of_articles_eq s _ i a a'
      (step_articles_eq (.deleteNewsletterForm u r pk) s trivial) h h'
    exact ⟨fun _ => by rw [ha'], fun ht => by rw [ha']; exact ht,
      fun hap => by simp [opApproves] at hap⟩
  | newsletterApi m r pk t d =>
    have ha' : a' = a := c1_of_articles_eq s _ i a a'
      (step_articles_eq (.newsletterApi m r pk t d) s trivial) h h'
    exact ⟨fun _ => by rw [ha'], fun ht => by rw [ha']; exact ht,
      fun hap => by simp [opApproves] at hap⟩
  | togglePublisherSub u pk =>
    have ha' : a' = a := c1_of_articles_eq s _ i a a'
      (step_articles_eq (.togglePublisherSub u pk) s trivial) h h'
    exact ⟨fun _ => by rw [ha'], fun ht => by rw [ha']; exact ht,
      fun hap => by simp [opApproves] at hap⟩
  | toggleJournalistSub u pk =>
    have ha' : a' = a := c1_of_articles_eq s _ i a a'
      (step_articles_eq (.toggleJournalistSub u pk) s trivial) h h'
    exact ⟨fun _ => by rw [ha'], fun ht => by rw [ha']; exact ht,
      fun hap => by simp [opApproves] at hap⟩
  | joinPublisher u r pk =>
    have ha' : a' = a := c1_of_articles_eq s _ i a a'
      (step_articles_eq (.joinPublisher u r pk) s trivial) h h'
    exact ⟨fun _ => by rw [ha'], fun ht => by rw [ha']; exact ht,
      fun hap => by simp [opApproves] at hap⟩
  | leavePublisher u r pk =>
    have ha' : a' = a := c1_of_articles_eq s _ i a a'
      (step_articles_eq (.leavePublisher u r pk) s trivial) h h'
    exact ⟨fun _ => by rw [ha'], fun ht => by rw [ha']; exact ht,
      fun hap => by simp [opApproves] at hap⟩

/-- C1 witness: on the concrete store, an edit of the approved article 2
keeps `approved = true`, and the editor's approve of the pending
article 1 raises it to `true`. -/
theorem c1_witness :
    (getArticle s0 2 = some ⟨2, "Live story", "live body", 2, none, 7, 7, true⟩
      ∧ getArticle (step (.editArticleForm 2 .journalist 2 "t" "c" none 9) s0) 2 =
          some ⟨2, "t", "c", 2, none, 7, 9, true⟩)
    ∧ (⟨2, "t", "c", 2, none, 7, 9, true⟩ : Article).approved = true
    ∧ (getArticle s0 1 = some ⟨1, "Pending story", "pending body", 2, some 10, 5, 5, false⟩
      ∧ getArticle (step (.approveForm .editor 1 9) s0) 1 =
          some ⟨1, "Pending story", "pending body", 2, some 10, 5, 9, true⟩)
    ∧ (⟨1, "Pending story", "pending body", 2, some 10, 5, 9, true⟩ : Article).approved = true := by
  refine ⟨⟨by decide, by decide⟩, ?_, ⟨by decide, by decide⟩, ?_⟩
  · exact (c1_approved_monotone (.editArticleForm 2 .journalist 2 "t" "c" none 9) s0 2
      ⟨2, "Live story", "live body", 2, none, 7, 7, true⟩
      ⟨2, "t", "c", 2, none, 7, 9, true⟩ (by decide) (by decide)).2.1 rfl
  · exact (c1_approved_monotone (.approveForm .editor 1 9) s0 1
      ⟨1, "Pending story", "pending body", 2, some 10, 5, 5, false⟩
      ⟨1, "Pending story", "pending body", 2, some 10, 5, 9, true⟩
      (by decide) (by decide)).2.2 rfl

end NewsApp
